import Mathlib

/-!
Verification of the diana2 parallel collection pipeline
(`src/package/diana/daemons/collector2.py` and `src/package/diana/apis/dcmdir.py`)
against its natural-language specification.

Shallow embedding notes:
* Python exceptions are modelled by the `PyExc` type; a function that can
  raise returns `Except PyExc _`.
* The remote source and the destination store are external collaborators;
  they are modelled as records of functions (`SourceBehavior`,
  `DestBehavior`) so that theorems quantify over every possible
  collaborator behavior.
* The three module-level counters `handled`, `skipped`, `failed` of
  collector2.py are modelled by a `Counters` value threaded through
  `handle_item`.
* `handle_item` additionally records a trace of the collaborator calls it
  makes (`Ev`), used to state the frame conditions of the spec.
* Python rebinds the local variable `item` (after `anonymize` and `get`);
  the caller keeps a reference to the original object, whose only in-place
  mutation is `item.tags.update(r[0])`.  The embedding therefore threads
  two items through the later stages: `orig`, the caller's object, and
  `cur`, the local variable; `HandleResult.item` is the caller's object.
-/

/-- A Python dict with string keys and values, as an association list
(first binding wins on lookup). -/
abbrev Dict := List (String × String)

/-- The Python exception classes that the collector code distinguishes. -/
inductive PyExc where
  | keyError
  | valueError
  | attributeError
  | fileNotFoundError
  | assertionError
  | other
deriving DecidableEq, Repr

deriving instance DecidableEq for Except

/-- The structured report object attached to a Dixel; its `radcat()`
categorization either returns a category string or raises. -/
structure Report where
  radcat : Except PyExc String
deriving DecidableEq, Repr

/-- Embedding of the Dixel record (tags, meta, optional report, optional
binary file payload).  The payload is a byte list. -/
structure Dixel where
  tags : Dict
  meta : Dict
  report : Option Report
  file : Option (List Nat)
deriving DecidableEq, Repr

/-- The three module-level shared progress counters of collector2.py. -/
structure Counters where
  handled : Nat
  skipped : Nat
  failed : Nat
deriving DecidableEq, Repr

/-- Observable collaborator calls made by `Collector.handle_item`;
used to state the frame conditions (which calls are made on which path). -/
inductive Ev where
  | keyEmit (key_id : String)
  | reportPut
  | findCall
  | anonymizeCall
  | getCall
  | putCall
  | deleteCall
deriving DecidableEq, Repr

/-- Result of one `handle_item` call: `exc` is the exception propagated out
of the call (`none` when it returns normally), `counters` the shared
counters after the call, `item` the caller's Dixel object after the call
(in-place mutations only), `trace` the collaborator calls made. -/
structure HandleResult where
  exc : Option PyExc
  counters : Counters
  item : Dixel
  trace : List Ev
deriving DecidableEq, Repr

/-- Behavior of the remote proxied source collaborator
(`source.find`, `source.proxy.exists`, `source.proxy.anonymize`,
`source.proxy.get`, `source.proxy.delete`).  Each fallible operation
returns `Except PyExc _`. -/
structure SourceBehavior where
  find : Dict → List Dict
  proxyExists : Dixel → Bool
  anonymize : Dixel → Except PyExc Dixel
  get : Dixel → Except PyExc Dixel
  delete : Dixel → Except PyExc Unit

/-- Behavior of the data destination collaborator (`DcmDir` or `ImageDir`):
`isImageDir` records the destination's class for the
`isinstance(data_dest, ImageDir)` test, `existsFn` models
`data_dest.exists`, `put` models `data_dest.put`. -/
structure DestBehavior where
  isImageDir : Bool
  existsFn : Dixel → Bool
  put : Dixel → Except PyExc Unit

/-- Python `d[k]` on a dict: the value when the key is present, otherwise a
KeyError is raised. -/
def getTag (d : Dict) (k : String) : Except PyExc String :=
  match d.lookup k with
  | some v => Except.ok v
  | none => Except.error PyExc.keyError

/-- Embedding of collector2.py lines 123-127:
`try: radcat = item.report.radcat() except ValueError: radcat = ""`.
When the report is `None`, `item.report.radcat()` raises AttributeError,
which the `except ValueError` clause does not catch; a ValueError raised by
the categorization is caught and the empty category substituted; any other
exception from the categorization propagates. -/
def radcatStage (rep : Option Report) : Except PyExc String :=
  match rep with
  | none => Except.error PyExc.attributeError
  | some r =>
    match r.radcat with
    | Except.ok s => Except.ok s
    | Except.error e =>
      if e = PyExc.valueError then Except.ok "" else Except.error e

/-- Sequencing of fallible Python statements: the first raised exception
propagates. -/
def exSeq {α β : Type} (a : Except PyExc α) (f : α → Except PyExc β) :
    Except PyExc β :=
  match a with
  | Except.error e => Except.error e
  | Except.ok v => f v

/-- Embedding of collector2.py lines 123-139 (the KEYING section): the
radcat try/except, then `key_id = item.tags["AccessionNumber"]`, then the
`key_data` dict literal, whose entries are evaluated in source order and
whose lookups may each raise KeyError. -/
def keying (item : Dixel) : Except PyExc (String × Dict) :=
  exSeq (radcatStage item.report) fun radcat =>
  exSeq (getTag item.tags "AccessionNumber") fun key_id =>
  exSeq (getTag item.tags "Modality") fun modality =>
  exSeq (getTag item.meta "BodyParts") fun body_part =>
  exSeq (getTag item.meta "CPTCodes") fun cpts =>
  exSeq (getTag item.meta "PatientAge") fun age =>
  exSeq (getTag item.tags "PatientSex") fun sex =>
  exSeq (getTag item.meta "PatientStatus") fun status =>
  Except.ok (key_id,
    [("modality", modality), ("body_part", body_part), ("cpts", cpts),
     ("age", age), ("sex", sex), ("status", status), ("radcat", radcat)])

/-- Embedding of the `mkq` helper (collector2.py lines 167-178): the
minimal identifying query, all fields blanked except the accession number.
The accession lookup cannot raise here because `handle_item` has already
read `item.tags["AccessionNumber"]` during KEYING. -/
def mkq (item : Dixel) : Dict :=
  [("PatientName", ""),
   ("PatientID", ""),
   ("PatientBirthDate", ""),
   ("PatientSex", ""),
   ("AccessionNumber", (item.tags.lookup "AccessionNumber").getD ""),
   ("StudyDescription", ""),
   ("StudyInstanceUID", ""),
   ("StudyDate", ""),
   ("StudyTime", "")]

/-- Python `d.update(r)` on dicts: keys of `r` override, other keys of `d`
are kept, new keys of `r` are appended. -/
def dictUpdate (d r : Dict) : Dict :=
  (d.map fun kv =>
    match r.lookup kv.1 with
    | some v => (kv.1, v)
    | none => kv) ++
  r.filter fun kv => (d.lookup kv.1).isNone

/-- Embedding of collector2.py lines 207-223: the payload fetch
(`source.proxy.get(item, view=DixelView.FILE)`, FileNotFoundError counted
as a failure, any other exception propagating), then `data_dest.put(item)`,
then `source.proxy.delete(item)`, then `handled += 1`.
`orig` is the caller's object, `cur` the local `item` variable. -/
def persistStage (orig cur : Dixel) (src : SourceBehavior)
    (dd : DestBehavior) (c : Counters) (tr : List Ev) : HandleResult :=
  match src.get cur with
  | Except.error e =>
    if e = PyExc.fileNotFoundError then
      { exc := none, counters := { c with failed := c.failed + 1 },
        item := orig, trace := tr ++ [Ev.getCall] }
    else
      { exc := some e, counters := c, item := orig,
        trace := tr ++ [Ev.getCall] }
  | Except.ok fetched =>
    match dd.put fetched with
    | Except.error e =>
      { exc := some e, counters := c, item := orig,
        trace := tr ++ [Ev.getCall, Ev.putCall] }
    | Except.ok _ =>
      match src.delete fetched with
      | Except.error e =>
        { exc := some e, counters := c, item := orig,
          trace := tr ++ [Ev.getCall, Ev.putCall, Ev.deleteCall] }
      | Except.ok _ =>
        { exc := none, counters := { c with handled := c.handled + 1 },
          item := orig, trace := tr ++ [Ev.getCall, Ev.putCall, Ev.deleteCall] }

/-- Embedding of collector2.py lines 203-205: anonymize when requested and
the destination is not an ImageDir, rebinding the local `item` to the
result, then continue with the payload fetch. -/
def anonStage (orig cur : Dixel) (src : SourceBehavior) (dd : DestBehavior)
    (anonymize : Bool) (c : Counters) (tr : List Ev) : HandleResult :=
  if anonymize && !dd.isImageDir then
    match src.anonymize cur with
    | Except.error e =>
      { exc := some e, counters := c, item := orig,
        trace := tr ++ [Ev.anonymizeCall] }
    | Except.ok cur2 => persistStage orig cur2 src dd c (tr ++ [Ev.anonymizeCall])
  else
    persistStage orig cur src dd c tr

/-- Embedding of collector2.py lines 194-200: the existence-at-source
check `source.proxy.exists(item)` after metadata resolution; failure
increments `failed` and terminates, success continues with anonymization. -/
def stagedStage (orig cur : Dixel) (src : SourceBehavior)
    (dd : DestBehavior) (anonymize : Bool) (c : Counters) (tr : List Ev) :
    HandleResult :=
  if !src.proxyExists cur then
    { exc := none, counters := { c with failed := c.failed + 1 },
      item := orig, trace := tr }
  else
    anonStage orig cur src dd anonymize c tr

/-- Embedding of collector2.py lines 183-191: metadata resolution.
`r = source.find(mkq(item), retrieve=True)`; empty result increments
`failed` and terminates with `item.tags` untouched; otherwise
`item.tags.update(r[0])` merges the first result's tags in place and
processing continues. -/
def findStage (item : Dixel) (src : SourceBehavior) (dd : DestBehavior)
    (anonymize : Bool) (c : Counters) (tr : List Ev) : HandleResult :=
  match src.find (mkq item) with
  | [] =>
    { exc := none, counters := { c with failed := c.failed + 1 },
      item := item, trace := tr ++ [Ev.findCall] }
  | r0 :: _ =>
    let merged : Dixel := { item with tags := dictUpdate item.tags r0 }
    stagedStage merged merged src dd anonymize c (tr ++ [Ev.findCall])

/-- Embedding of `Collector.handle_item` (collector2.py lines 111-223).
`report_dest` records whether a report destination is configured,
`key_handler` whether a key handler is configured (queue or direct sink:
both only emit the key row, modelled by the `keyEmit` trace event). -/
def handle_item (item : Dixel) (src : SourceBehavior) (dd : DestBehavior)
    (report_dest : Bool) (anonymize : Bool) (key_handler : Bool)
    (c : Counters) : HandleResult :=
  match keying item with
  | Except.error e =>
    { exc := some e, counters := c, item := item, trace := [] }
  | Except.ok (key_id, _key_data) =>
    let tr1 : List Ev :=
      (if key_handler then [Ev.keyEmit key_id] else []) ++
      (if report_dest then [Ev.reportPut] else [])
    if dd.existsFn item then
      { exc := none, counters := { c with skipped := c.skipped + 1 },
        item := item, trace := tr1 }
    else
      findStage item src dd anonymize c tr1

/-- Embedding of the serial branch of `Collector.run` (collector2.py
lines 76-83): iterate the worklist, calling `handle_item` on each item with
the direct key handler; an exception propagating out of `handle_item`
aborts the loop (the loop has no try/except). -/
def runSerial (worklist : List Dixel) (src : SourceBehavior)
    (dd : DestBehavior) (report_dest anonymize : Bool) (c : Counters) :
    Option PyExc × Counters :=
  match worklist with
  | [] => (none, c)
  | it :: rest =>
    let r := handle_item it src dd report_dest anonymize true c
    match r.exc with
    | some e => (some e, r.counters)
    | none => runSerial rest src dd report_dest anonymize r.counters

/-- The two values successively bound to the local variable `p` in the
pooled branch of `Collector.run` (collector2.py lines 85-91). -/
inductive PoolTarget where
  | handleItemClosure
  | keyWriterProcess
deriving DecidableEq, Repr

/-- Embedding of collector2.py lines 85-94: the callable that
`self.pool.map(p, ...)` dispatches over each worklist slice.  The local
`p` is first bound to `partial(Collector.handle_item, ...)` (lines 85-90)
and then immediately rebound to `Process(key_handler.run)` (line 91), so
the value passed to `pool.map` at line 94 is the Process object, not the
item-handler closure. -/
def pooledMapTarget : PoolTarget :=
  let p := PoolTarget.handleItemClosure
  let p := PoolTarget.keyWriterProcess
  p

/-- Embedding of `Collector.estimate_sublist_len` (collector2.py
lines 31-34): the worklist slice length is twice the pool size. -/
def estimate_sublist_len (pool_size : Nat) : Nat :=
  2 * pool_size

/-- Embedding of collector2.py line 102:
`elapsed_time = (toc - tic).seconds or 1`.  `secs` is the wall-clock
seconds value; Python `x or 1` yields 1 exactly when `x` is falsy (0). -/
def elapsed_time (secs : Nat) : Nat :=
  if secs = 0 then 1 else secs

/-- Embedding of collector2.py line 103:
`handling_rate = handled.value / elapsed_time` (the claim under
verification concerns only the denominator, so integer division stands in
for Python float division). -/
def handling_rate (handledCount secs : Nat) : Nat :=
  handledCount / elapsed_time secs

/-- Modelled from the spec: the Dixel key function `item.fn()`
("a Record's identity for destination idempotency checks is derived
deterministically from its tags (filename/key function)").  The concrete
formula lives in dixel.py, outside src/; only determinism in the tags
matters here, so the accession number names the file. -/
def Dixel.fn (item : Dixel) : String :=
  (item.tags.lookup "AccessionNumber").getD "" ++ ".dcm"

/-- Embedding of the `DcmDir` endpoint (dcmdir.py): only the state its
`put` method touches, namely the file gateway, modelled as the list of
(filename, data) writes made so far (most recent first).  The gateway's
`write_file` (outside src/) is modelled from the spec as recording one
write. -/
structure DcmDir where
  gatewayFiles : List (String × List Nat)
deriving DecidableEq, Repr

/-- Python truthiness of the optional `item.file` payload: `not item.file`
is true for `None` and for an empty bytes object. -/
def fileFalsy : Option (List Nat) → Bool
  | none => true
  | some bs => bs.isEmpty

/-- Embedding of `DcmDir.put` (dcmdir.py lines 25-30): raise ValueError
when the item has no (truthy) file payload, otherwise write the payload as
one file named `item.fn()` via the gateway. -/
def DcmDir.put (self : DcmDir) (item : Dixel) : Except PyExc DcmDir :=
  if fileFalsy item.file then
    Except.error PyExc.valueError
  else
    Except.ok { gatewayFiles := (item.fn, item.file.getD []) :: self.gatewayFiles }

/-!  Concrete fixtures used by witnesses and counterexamples.  -/

/-- Counters at the start of a run. -/
def c0 : Counters := { handled := 0, skipped := 0, failed := 0 }

/-- A well-formed worklist item: all tags and meta fields read by the
KEYING section are present and its report categorizes successfully. -/
def wfItem : Dixel :=
  { tags := [("AccessionNumber", "ACC001"), ("Modality", "CT"),
             ("PatientSex", "F")],
    meta := [("BodyParts", "HEAD"), ("CPTCodes", "70450"),
             ("PatientAge", "044Y"), ("PatientStatus", "OUTPATIENT")],
    report := some { radcat := Except.ok "R3" },
    file := none }

/-- A destination at which every item already exists (Scenario A / D). -/
def destAllExists : DestBehavior :=
  { isImageDir := false,
    existsFn := fun _ => true,
    put := fun _ => Except.ok () }

/-- A raw-file destination at which no item exists yet. -/
def destFresh : DestBehavior :=
  { isImageDir := false,
    existsFn := fun _ => false,
    put := fun _ => Except.ok () }

/-- A source whose find returns nothing (Scenario B); its other operations
are never reached on the paths exercised with it. -/
def srcEmpty : SourceBehavior :=
  { find := fun _ => [],
    proxyExists := fun _ => false,
    anonymize := fun d => Except.ok d,
    get := fun _ => Except.error PyExc.other,
    delete := fun _ => Except.ok () }

/-- A fully successful source (Scenario C): find resolves one tag set, the
proxy has the object staged, anonymization succeeds, get attaches a file
payload, delete succeeds. -/
def srcHappy : SourceBehavior :=
  { find := fun _ => [[("StudyInstanceUID", "1.2.3"), ("Modality", "CT")]],
    proxyExists := fun _ => true,
    anonymize := fun d => Except.ok { d with tags := ("PatientName", "ANON") :: d.tags },
    get := fun d => Except.ok { d with file := some [1, 2, 3] },
    delete := fun _ => Except.ok () }

/-- A source like `srcHappy` whose payload fetch raises
FileNotFoundError. -/
def srcNoFile : SourceBehavior :=
  { srcHappy with get := fun _ => Except.error PyExc.fileNotFoundError }

/-- A source like `srcHappy` at which the object is never staged after
resolution. -/
def srcNotStaged : SourceBehavior :=
  { srcHappy with proxyExists := fun _ => false }

/-- An item whose report is absent (`item.report is None`). -/
def itemNoReport : Dixel := { wfItem with report := none }

/-- An item whose report categorization raises a non-ValueError error. -/
def itemBadReport : Dixel :=
  { wfItem with report := some { radcat := Except.error PyExc.other } }

/-- An item whose report categorization raises ValueError. -/
def itemVEReport : Dixel :=
  { wfItem with report := some { radcat := Except.error PyExc.valueError } }

/-!  Helper lemmas shared by the claim theorems.  -/

/-- The counter transition asserted by the spec: exactly one of the three
counters increases by exactly one, the other two are unchanged. -/
def incOne (c c2 : Counters) : Prop :=
  c2 = { c with handled := c.handled + 1 } ∨
  c2 = { c with skipped := c.skipped + 1 } ∨
  c2 = { c with failed := c.failed + 1 }

theorem persistStage_fnf (orig cur : Dixel) (src : SourceBehavior)
    (dd : DestBehavior) (c : Counters) (tr : List Ev)
    (hg : src.get cur = Except.error PyExc.fileNotFoundError) :
    persistStage orig cur src dd c tr =
      { exc := none, counters := { c with failed := c.failed + 1 },
        item := orig, trace := tr ++ [Ev.getCall] } := by
  simp [persistStage, hg]

theorem persistStage_err (orig cur : Dixel) (src : SourceBehavior)
    (dd : DestBehavior) (c : Counters) (tr : List Ev) (e : PyExc)
    (hg : src.get cur = Except.error e) (hne : e ≠ PyExc.fileNotFoundError) :
    persistStage orig cur src dd c tr =
      { exc := some e, counters := c, item := orig,
        trace := tr ++ [Ev.getCall] } := by
  simp [persistStage, hg, hne]

theorem persistStage_putErr (orig cur : Dixel) (src : SourceBehavior)
    (dd : DestBehavior) (c : Counters) (tr : List Ev) (fetched : Dixel)
    (e : PyExc) (hg : src.get cur = Except.ok fetched)
    (hp : dd.put fetched = Except.error e) :
    persistStage orig cur src dd c tr =
      { exc := some e, counters := c, item := orig,
        trace := tr ++ [Ev.getCall, Ev.putCall] } := by
  simp [persistStage, hg, hp]

theorem persistStage_delErr (orig cur : Dixel) (src : SourceBehavior)
    (dd : DestBehavior) (c : Counters) (tr : List Ev) (fetched : Dixel)
    (e : PyExc) (hg : src.get cur = Except.ok fetched)
    (hp : dd.put fetched = Except.ok ())
    (hd : src.delete fetched = Except.error e) :
    persistStage orig cur src dd c tr =
      { exc := some e, counters := c, item := orig,
        trace := tr ++ [Ev.getCall, Ev.putCall, Ev.deleteCall] } := by
  simp [persistStage, hg, hp, hd]

theorem persistStage_ok (orig cur : Dixel) (src : SourceBehavior)
    (dd : DestBehavior) (c : Counters) (tr : List Ev) (fetched : Dixel)
    (hg : src.get cur = Except.ok fetched)
    (hp : dd.put fetched = Except.ok ())
    (hd : src.delete fetched = Except.ok ()) :
    persistStage orig cur src dd c tr =
      { exc := none, counters := { c with handled := c.handled + 1 },
        item := orig, trace := tr ++ [Ev.getCall, Ev.putCall, Ev.deleteCall] } := by
  simp [persistStage, hg, hp, hd]

theorem anonStage_on (orig cur : Dixel) (src : SourceBehavior)
    (dd : DestBehavior) (an : Bool) (c : Counters) (tr : List Ev)
    (cur2 : Dixel) (hb : (an && !dd.isImageDir) = true)
    (ha : src.anonymize cur = Except.ok cur2) :
    anonStage orig cur src dd an c tr =
      persistStage orig cur2 src dd c (tr ++ [Ev.anonymizeCall]) := by
  simp [anonStage, hb, ha]

theorem anonStage_raise (orig cur : Dixel) (src : SourceBehavior)
    (dd : DestBehavior) (an : Bool) (c : Counters) (tr : List Ev)
    (e : PyExc) (hb : (an && !dd.isImageDir) = true)
    (ha : src.anonymize cur = Except.error e) :
    anonStage orig cur src dd an c tr =
      { exc := some e, counters := c, item := orig,
        trace := tr ++ [Ev.anonymizeCall] } := by
  simp [anonStage, hb, ha]

theorem anonStage_off (orig cur : Dixel) (src : SourceBehavior)
    (dd : DestBehavior) (an : Bool) (c : Counters) (tr : List Ev)
    (hb : (an && !dd.isImageDir) = false) :
    anonStage orig cur src dd an c tr =
      persistStage orig cur src dd c tr := by
  simp [anonStage, hb]

theorem stagedStage_notStaged (orig cur : Dixel) (src : SourceBehavior)
    (dd : DestBehavior) (an : Bool) (c : Counters) (tr : List Ev)
    (hs : src.proxyExists cur = false) :
    stagedStage orig cur src dd an c tr =
      { exc := none, counters := { c with failed := c.failed + 1 },
        item := orig, trace := tr } := by
  simp [stagedStage, hs]

theorem stagedStage_staged (orig cur : Dixel) (src : SourceBehavior)
    (dd : DestBehavior) (an : Bool) (c : Counters) (tr : List Ev)
    (hs : src.proxyExists cur = true) :
    stagedStage orig cur src dd an c tr =
      anonStage orig cur src dd an c tr := by
  simp [stagedStage, hs]

theorem findStage_nil (item : Dixel) (src : SourceBehavior)
    (dd : DestBehavior) (an : Bool) (c : Counters) (tr : List Ev)
    (hf : src.find (mkq item) = []) :
    findStage item src dd an c tr =
      { exc := none, counters := { c with failed := c.failed + 1 },
        item := item, trace := tr ++ [Ev.findCall] } := by
  simp [findStage, hf]

theorem findStage_cons (item : Dixel) (src : SourceBehavior)
    (dd : DestBehavior) (an : Bool) (c : Counters) (tr : List Ev)
    (r0 : Dict) (rest : List Dict) (hf : src.find (mkq item) = r0 :: rest) :
    findStage item src dd an c tr =
      stagedStage { item with tags := dictUpdate item.tags r0 }
        { item with tags := dictUpdate item.tags r0 } src dd an c
        (tr ++ [Ev.findCall]) := by
  simp [findStage, hf]

theorem handle_item_raise (item : Dixel) (src : SourceBehavior)
    (dd : DestBehavior) (rd an kh : Bool) (c : Counters) (e : PyExc)
    (hk : keying item = Except.error e) :
    handle_item item src dd rd an kh c =
      { exc := some e, counters := c, item := item, trace := [] } := by
  simp [handle_item, hk]

theorem handle_item_skip (item : Dixel) (src : SourceBehavior)
    (dd : DestBehavior) (rd an kh : Bool) (c : Counters)
    (key_id : String) (kdata : Dict)
    (hk : keying item = Except.ok (key_id, kdata))
    (hex : dd.existsFn item = true) :
    handle_item item src dd rd an kh c =
      { exc := none, counters := { c with skipped := c.skipped + 1 },
        item := item,
        trace := (if kh then [Ev.keyEmit key_id] else []) ++
                 (if rd then [Ev.reportPut] else []) } := by
  simp [handle_item, hk, hex]

theorem handle_item_findStage (item : Dixel) (src : SourceBehavior)
    (dd : DestBehavior) (rd an kh : Bool) (c : Counters)
    (key_id : String) (kdata : Dict)
    (hk : keying item = Except.ok (key_id, kdata))
    (hex : dd.existsFn item = false) :
    handle_item item src dd rd an kh c =
      findStage item src dd an c
        ((if kh then [Ev.keyEmit key_id] else []) ++
         (if rd then [Ev.reportPut] else [])) := by
  simp [handle_item, hk, hex]

theorem persistStage_incOne (orig cur : Dixel) (src : SourceBehavior)
    (dd : DestBehavior) (c : Counters) (tr : List Ev)
    (h : (persistStage orig cur src dd c tr).exc = none) :
    incOne c (persistStage orig cur src dd c tr).counters := by
  cases hg : src.get cur with
  | error e =>
    by_cases hfe : e = PyExc.fileNotFoundError
    · subst hfe
      rw [persistStage_fnf orig cur src dd c tr hg]
      exact Or.inr (Or.inr rfl)
    · rw [persistStage_err orig cur src dd c tr e hg hfe] at h
      simp at h
  | ok fetched =>
    cases hp : dd.put fetched with
    | error e =>
      rw [persistStage_putErr orig cur src dd c tr fetched e hg hp] at h
      simp at h
    | ok u =>
      cases hd : src.delete fetched with
      | error e =>
        rw [persistStage_delErr orig cur src dd c tr fetched e hg hp hd] at h
        simp at h
      | ok u2 =>
        rw [persistStage_ok orig cur src dd c tr fetched hg hp hd]
        exact Or.inl rfl

theorem anonStage_incOne (orig cur : Dixel) (src : SourceBehavior)
    (dd : DestBehavior) (an : Bool) (c : Counters) (tr : List Ev)
    (h : (anonStage orig cur src dd an c tr).exc = none) :
    incOne c (anonStage orig cur src dd an c tr).counters := by
  cases hb : (an && !dd.isImageDir) with
  | true =>
    cases ha : src.anonymize cur with
    | error e =>
      rw [anonStage_raise orig cur src dd an c tr e hb ha] at h
      simp at h
    | ok cur2 =>
      rw [anonStage_on orig cur src dd an c tr cur2 hb ha] at h ⊢
      exact persistStage_incOne orig cur2 src dd c (tr ++ [Ev.anonymizeCall]) h
  | false =>
    rw [anonStage_off orig cur src dd an c tr hb] at h ⊢
    exact persistStage_incOne orig cur src dd c tr h

theorem stagedStage_incOne (orig cur : Dixel) (src : SourceBehavior)
    (dd : DestBehavior) (an : Bool) (c : Counters) (tr : List Ev)
    (h : (stagedStage orig cur src dd an c tr).exc = none) :
    incOne c (stagedStage orig cur src dd an c tr).counters := by
  cases hs : src.proxyExists cur with
  | false =>
    rw [stagedStage_notStaged orig cur src dd an c tr hs]
    exact Or.inr (Or.inr rfl)
  | true =>
    rw [stagedStage_staged orig cur src dd an c tr hs] at h ⊢
    exact anonStage_incOne orig cur src dd an c tr h

theorem findStage_incOne (item : Dixel) (src : SourceBehavior)
    (dd : DestBehavior) (an : Bool) (c : Counters) (tr : List Ev)
    (h : (findStage item src dd an c tr).exc = none) :
    incOne c (findStage item src dd an c tr).counters := by
  cases hf : src.find (mkq item) with
  | nil =>
    rw [findStage_nil item src dd an c tr hf]
    exact Or.inr (Or.inr rfl)
  | cons r0 rest =>
    rw [findStage_cons item src dd an c tr r0 rest hf] at h ⊢
    exact stagedStage_incOne _ _ src dd an c (tr ++ [Ev.findCall]) h

/-!  Claim theorems.  -/

/-- C1 (code-bug evaluation): serial mode over a worklist of 5 items that
are all skippable at the destination ends with counters
(handled = 0, skipped = 5, failed = 0), but the pooled branch of
`Collector.run` does not map the Item Handler over the worklist slices:
the local `p` holding the `handle_item` closure (collector2.py lines
85-90) is rebound to the key-writer `Process` object at line 91 before
`pool.map(p, ...)` runs, so the dispatched callable is the Process, not
`Collector.handle_item`. -/
theorem C1_pooled_map_bug :
    runSerial (List.replicate 5 wfItem) srcEmpty destAllExists false true c0 =
      (none, { handled := 0, skipped := 5, failed := 0 }) ∧
    pooledMapTarget = PoolTarget.keyWriterProcess ∧
    pooledMapTarget ≠ PoolTarget.handleItemClosure := by
  refine ⟨by decide, rfl, by decide⟩

/-- C2: whenever `handle_item` returns (its propagated exception is none),
exactly one of the counters handled, skipped, failed has increased by
exactly 1 and the other two are unchanged. -/
theorem C2_exactly_one_counter (item : Dixel) (src : SourceBehavior)
    (dd : DestBehavior) (rd an kh : Bool) (c : Counters)
    (h : (handle_item item src dd rd an kh c).exc = none) :
    incOne c (handle_item item src dd rd an kh c).counters := by
  cases hk : keying item with
  | error e =>
    rw [handle_item_raise item src dd rd an kh c e hk] at h
    simp at h
  | ok kd =>
    obtain ⟨key_id, kdata⟩ := kd
    cases hex : dd.existsFn item with
    | true =>
      rw [handle_item_skip item src dd rd an kh c key_id kdata hk hex]
      exact Or.inr (Or.inl rfl)
    | false =>
      rw [handle_item_findStage item src dd rd an kh c key_id kdata hk hex] at h ⊢
      exact findStage_incOne item src dd an c _ h

/-- C2 witness: a concrete returning call (an already-materialized item is
skipped) increments exactly one counter. -/
theorem C2_witness :
    (handle_item wfItem srcEmpty destAllExists false true true c0).exc = none ∧
    incOne c0 (handle_item wfItem srcEmpty destAllExists false true true c0).counters :=
  ⟨by decide,
   C2_exactly_one_counter wfItem srcEmpty destAllExists false true true c0 (by decide)⟩

/-- C3 counterexample: on an item whose report is absent,
`item.report.radcat()` raises AttributeError, which the
`except ValueError` clause of handle_item does not catch, so the
key-extraction step aborts the item: the exception propagates, no later
stage runs (empty trace) and no counter changes. -/
theorem C3_absent_report_aborts :
    handle_item itemNoReport srcEmpty destFresh false true true c0 =
      { exc := some PyExc.attributeError, counters := c0,
        item := itemNoReport, trace := [] } := by
  decide

/-- C3 (amended): a ValueError raised by the report's categorization is
caught and the empty category is substituted, so the key-extraction step
continues; but when the categorization step does raise through (absent
report, giving AttributeError, or any non-ValueError error), handle_item
aborts the item at key extraction with counters, tags and trace
untouched. -/
theorem C3_amended_radcat (item : Dixel) (src : SourceBehavior)
    (dd : DestBehavior) (rd an kh : Bool) (c : Counters) :
    (∀ rep, item.report = some rep →
      rep.radcat = Except.error PyExc.valueError →
      radcatStage item.report = Except.ok "") ∧
    (item.report = none →
      radcatStage item.report = Except.error PyExc.attributeError) ∧
    (∀ e, radcatStage item.report = Except.error e →
      handle_item item src dd rd an kh c =
        { exc := some e, counters := c, item := item, trace := [] }) := by
  refine ⟨?_, ?_, ?_⟩
  · intro rep hrep hrc
    simp [radcatStage, hrep, hrc]
  · intro hrep
    simp [radcatStage, hrep]
  · intro e he
    have hk : keying item = Except.error e := by
      simp [keying, exSeq, he]
    exact handle_item_raise item src dd rd an kh c e hk

/-- C3 witness: a concrete report whose categorization raises ValueError
gets the empty category, and a concrete absent report aborts the item with
AttributeError. -/
theorem C3_amended_witness :
    radcatStage itemVEReport.report = Except.ok "" ∧
    handle_item itemNoReport srcHappy destFresh false true true c0 =
      { exc := some PyExc.attributeError, counters := c0,
        item := itemNoReport, trace := [] } :=
  ⟨(C3_amended_radcat itemVEReport srcEmpty destFresh false true true c0).1
     { radcat := Except.error PyExc.valueError } rfl rfl,
   (C3_amended_radcat itemNoReport srcHappy destFresh false true true c0).2.2
     PyExc.attributeError (by decide)⟩

/-- C8: the elapsed-time value used for the throughput rate is the
wall-clock seconds floored at 1, so it is at least 1 (and in particular
the division in handling_rate never divides by zero). -/
theorem C8_elapsed_floor (secs : Nat) :
    1 ≤ elapsed_time secs ∧ elapsed_time secs ≠ 0 := by
  unfold elapsed_time
  split <;> omega

/-- C10: DcmDir.put raises ValueError, leaving the file gateway untouched,
whenever the item's file payload is falsy (absent or empty); with a
present non-empty payload it returns a gateway extended by exactly one
write, named by the item's key function `item.fn()`. -/
theorem C10_dcmdir_put (d : DcmDir) (item : Dixel) :
    (fileFalsy item.file = true →
      DcmDir.put d item = Except.error PyExc.valueError) ∧
    (∀ bs, item.file = some bs → bs ≠ [] →
      DcmDir.put d item =
        Except.ok { gatewayFiles := (item.fn, bs) :: d.gatewayFiles }) := by
  constructor
  · intro h
    simp [DcmDir.put, h]
  · intro bs hbs hne
    have hf : fileFalsy (some bs) = false := by
      cases bs with
      | nil => exact absurd rfl hne
      | cons b bs2 => simp [fileFalsy]
    simp [DcmDir.put, hbs, hf]

/-- C10 witness: a concrete put with payload [7] writes one file named by
the key function; a concrete put without payload raises ValueError. -/
theorem C10_witness :
    DcmDir.put { gatewayFiles := [] } { wfItem with file := some [7] } =
      Except.ok { gatewayFiles :=
        [(Dixel.fn { wfItem with file := some [7] }, [7])] } ∧
    DcmDir.put { gatewayFiles := [] } wfItem = Except.error PyExc.valueError :=
  ⟨(C10_dcmdir_put { gatewayFiles := [] } { wfItem with file := some [7] }).2
     [7] rfl (by decide),
   (C10_dcmdir_put { gatewayFiles := [] } wfItem).1 (by decide)⟩

/-- Membership of the accumulated trace prefix is preserved by the
persist stage (it only appends events). -/
theorem persistStage_keeps_tr (orig cur : Dixel) (src : SourceBehavior)
    (dd : DestBehavior) (c : Counters) (tr : List Ev) (e : Ev)
    (h : e ∈ tr) : e ∈ (persistStage orig cur src dd c tr).trace := by
  cases hg : src.get cur with
  | error e2 =>
    by_cases hfe : e2 = PyExc.fileNotFoundError
    · subst hfe
      rw [persistStage_fnf orig cur src dd c tr hg]
      simp [h]
    · rw [persistStage_err orig cur src dd c tr e2 hg hfe]
      simp [h]
  | ok fetched =>
    cases hp : dd.put fetched with
    | error e2 =>
      rw [persistStage_putErr orig cur src dd c tr fetched e2 hg hp]
      simp [h]
    | ok u =>
      cases hd : src.delete fetched with
      | error e2 =>
        rw [persistStage_delErr orig cur src dd c tr fetched e2 hg hp hd]
        simp [h]
      | ok u2 =>
        rw [persistStage_ok orig cur src dd c tr fetched hg hp hd]
        simp [h]

/-- The persist stage never emits an anonymize event: when the anonymize
event is not already in the trace prefix, it is not in the stage's
trace. -/
theorem persistStage_no_anonEv (orig cur : Dixel) (src : SourceBehavior)
    (dd : DestBehavior) (c : Counters) (tr : List Ev)
    (htr : Ev.anonymizeCall ∉ tr) :
    Ev.anonymizeCall ∉ (persistStage orig cur src dd c tr).trace := by
  cases hg : src.get cur with
  | error e2 =>
    by_cases hfe : e2 = PyExc.fileNotFoundError
    · subst hfe
      rw [persistStage_fnf orig cur src dd c tr hg]
      simp [htr]
    · rw [persistStage_err orig cur src dd c tr e2 hg hfe]
      simp [htr]
  | ok fetched =>
    cases hp : dd.put fetched with
    | error e2 =>
      rw [persistStage_putErr orig cur src dd c tr fetched e2 hg hp]
      simp [htr]
    | ok u =>
      cases hd : src.delete fetched with
      | error e2 =>
        rw [persistStage_delErr orig cur src dd c tr fetched e2 hg hp hd]
        simp [htr]
      | ok u2 =>
        rw [persistStage_ok orig cur src dd c tr fetched hg hp hd]
        simp [htr]

/-- C4 counterexample: an item whose report categorization raises a
non-ValueError error, given to a destination where the item already
exists, makes handle_item raise instead of skipping: skipped stays 0, so
the claim's unconditional 'increments skipped by exactly 1' fails. -/
theorem C4_keying_error_no_skip :
    destAllExists.existsFn itemBadReport = true ∧
    (handle_item itemBadReport srcEmpty destAllExists false true true c0).exc =
      some PyExc.other ∧
    (handle_item itemBadReport srcEmpty destAllExists false true true c0).counters.skipped = 0 := by
  decide

/-- C4 (amended): for every item for which the destination's exists check
is true when handle_item is called AND on which handle_item returns
(rather than raising during key extraction), handle_item increments
skipped by exactly 1, leaves handled and failed unchanged, and makes no
call to source.find, source.get, source.delete, or the data destination's
put. -/
theorem C4_skip_frame (item : Dixel) (src : SourceBehavior)
    (dd : DestBehavior) (rd an kh : Bool) (c : Counters)
    (hex : dd.existsFn item = true)
    (hret : (handle_item item src dd rd an kh c).exc = none) :
    (handle_item item src dd rd an kh c).counters =
      { c with skipped := c.skipped + 1 } ∧
    Ev.findCall ∉ (handle_item item src dd rd an kh c).trace ∧
    Ev.getCall ∉ (handle_item item src dd rd an kh c).trace ∧
    Ev.deleteCall ∉ (handle_item item src dd rd an kh c).trace ∧
    Ev.putCall ∉ (handle_item item src dd rd an kh c).trace := by
  cases hk : keying item with
  | error e =>
    rw [handle_item_raise item src dd rd an kh c e hk] at hret
    simp at hret
  | ok kd =>
    obtain ⟨key_id, kdata⟩ := kd
    rw [handle_item_skip item src dd rd an kh c key_id kdata hk hex]
    refine ⟨rfl, ?_, ?_, ?_, ?_⟩ <;> cases kh <;> cases rd <;> simp

/-- C4 witness: a concrete skippable item is skipped with the frame
condition holding. -/
theorem C4_witness :
    (handle_item wfItem srcEmpty destAllExists false true true c0).counters =
      { c0 with skipped := c0.skipped + 1 } ∧
    Ev.findCall ∉ (handle_item wfItem srcEmpty destAllExists false true true c0).trace ∧
    Ev.getCall ∉ (handle_item wfItem srcEmpty destAllExists false true true c0).trace ∧
    Ev.deleteCall ∉ (handle_item wfItem srcEmpty destAllExists false true true c0).trace ∧
    Ev.putCall ∉ (handle_item wfItem srcEmpty destAllExists false true true c0).trace :=
  C4_skip_frame wfItem srcEmpty destAllExists false true true c0 rfl (by decide)

/-- C5: at the metadata-resolution stage, an empty source.find result
increments failed by exactly 1, leaves the item (hence item.tags)
unchanged and terminates; a non-empty result merges the first result's
tags into item.tags and processing continues with the staged-at-source
check; and handle_item reaches this stage exactly when keying succeeded
and the destination existence check was false. -/
theorem C5_metadata_resolution (item : Dixel) (src : SourceBehavior)
    (dd : DestBehavior) (rd an kh : Bool) (c : Counters) (tr : List Ev) :
    (src.find (mkq item) = [] →
      findStage item src dd an c tr =
        { exc := none, counters := { c with failed := c.failed + 1 },
          item := item, trace := tr ++ [Ev.findCall] }) ∧
    (∀ r0 rest, src.find (mkq item) = r0 :: rest →
      findStage item src dd an c tr =
        stagedStage { item with tags := dictUpdate item.tags r0 }
          { item with tags := dictUpdate item.tags r0 } src dd an c
          (tr ++ [Ev.findCall])) ∧
    (∀ key_id kdata, keying item = Except.ok (key_id, kdata) →
      dd.existsFn item = false →
      handle_item item src dd rd an kh c =
        findStage item src dd an c
          ((if kh then [Ev.keyEmit key_id] else []) ++
           (if rd then [Ev.reportPut] else []))) :=
  ⟨fun hf => findStage_nil item src dd an c tr hf,
   fun r0 rest hf => findStage_cons item src dd an c tr r0 rest hf,
   fun key_id kdata hk hex =>
     handle_item_findStage item src dd rd an kh c key_id kdata hk hex⟩

/-- C5 witness: a concrete item whose find returns [] fails with
counters (0, 0, 1) and its tags untouched, and a concrete handle_item
call reaches the resolution stage. -/
theorem C5_witness :
    findStage wfItem srcEmpty destFresh true c0 [] =
      { exc := none, counters := { c0 with failed := c0.failed + 1 },
        item := wfItem, trace := [Ev.findCall] } ∧
    handle_item wfItem srcEmpty destFresh false true true c0 =
      findStage wfItem srcEmpty destFresh true c0 [Ev.keyEmit "ACC001"] :=
  ⟨(C5_metadata_resolution wfItem srcEmpty destFresh false true true c0 []).1 rfl,
   (C5_metadata_resolution wfItem srcEmpty destFresh false true true c0 []).2.2
     "ACC001"
     [("modality", "CT"), ("body_part", "HEAD"), ("cpts", "70450"),
      ("age", "044Y"), ("sex", "F"), ("status", "OUTPATIENT"),
      ("radcat", "R3")]
     (by decide) rfl⟩

/-- C6: at the payload-fetch stage, a FileNotFoundError from source.get
increments failed by exactly 1 and terminates with no destination put and
no source delete (only the get event is appended to the trace); any other
exception from source.get propagates out with no counter incremented. -/
theorem C6_fetch_failures (orig cur : Dixel) (src : SourceBehavior)
    (dd : DestBehavior) (c : Counters) (tr : List Ev) :
    (src.get cur = Except.error PyExc.fileNotFoundError →
      persistStage orig cur src dd c tr =
        { exc := none, counters := { c with failed := c.failed + 1 },
          item := orig, trace := tr ++ [Ev.getCall] }) ∧
    (∀ e, e ≠ PyExc.fileNotFoundError → src.get cur = Except.error e →
      persistStage orig cur src dd c tr =
        { exc := some e, counters := c, item := orig,
          trace := tr ++ [Ev.getCall] }) :=
  ⟨fun hg => persistStage_fnf orig cur src dd c tr hg,
   fun e hne hg => persistStage_err orig cur src dd c tr e hg hne⟩

/-- C6 witness: a concrete not-found fetch counts one failure; a concrete
fetch raising a different error propagates it with counters unchanged. -/
theorem C6_witness :
    persistStage wfItem wfItem srcNoFile destFresh c0 [] =
      { exc := none, counters := { c0 with failed := c0.failed + 1 },
        item := wfItem, trace := [Ev.getCall] } ∧
    persistStage wfItem wfItem srcEmpty destFresh c0 [] =
      { exc := some PyExc.other, counters := c0, item := wfItem,
        trace := [Ev.getCall] } :=
  ⟨(C6_fetch_failures wfItem wfItem srcNoFile destFresh c0 []).1 rfl,
   (C6_fetch_failures wfItem wfItem srcEmpty destFresh c0 []).2
     PyExc.other (by decide) rfl⟩

/-- C7: at the anonymization stage, source.anonymize is called if and only
if the anonymize flag is set and the destination is not an ImageDir; when
it is called and succeeds the local item is replaced by its result for the
rest of the pipeline; when the flag is unset or the destination is an
ImageDir the stage is skipped entirely (no anonymize call, item kept). -/
theorem C7_anonymize_guard (orig cur : Dixel) (src : SourceBehavior)
    (dd : DestBehavior) (an : Bool) (c : Counters) :
    (Ev.anonymizeCall ∈ (anonStage orig cur src dd an c []).trace ↔
      (an = true ∧ dd.isImageDir = false)) ∧
    (∀ cur2, (an && !dd.isImageDir) = true →
      src.anonymize cur = Except.ok cur2 →
      anonStage orig cur src dd an c [] =
        persistStage orig cur2 src dd c [Ev.anonymizeCall]) ∧
    ((an && !dd.isImageDir) = false →
      anonStage orig cur src dd an c [] =
        persistStage orig cur src dd c []) := by
  refine ⟨?_, ?_, ?_⟩
  · cases hb : (an && !dd.isImageDir) with
    | true =>
      have hcond : an = true ∧ dd.isImageDir = false := by
        have h2 := hb
        simp at h2
        exact h2
      constructor
      · intro _
        exact hcond
      · intro _
        cases ha : src.anonymize cur with
        | error e =>
          rw [anonStage_raise orig cur src dd an c [] e hb ha]
          simp
        | ok cur2 =>
          rw [anonStage_on orig cur src dd an c [] cur2 hb ha]
          exact persistStage_keeps_tr orig cur2 src dd c
            ([] ++ [Ev.anonymizeCall]) Ev.anonymizeCall (by simp)
    | false =>
      rw [anonStage_off orig cur src dd an c [] hb]
      constructor
      · intro hmem
        exact absurd hmem
          (persistStage_no_anonEv orig cur src dd c [] (by simp))
      · intro hcond
        rw [hcond.1, hcond.2] at hb
        simp at hb
  · intro cur2 hb ha
    exact anonStage_on orig cur src dd an c [] cur2 hb ha
  · intro hb
    exact anonStage_off orig cur src dd an c [] hb

/-- C7 witness: with anonymize=false the stage is a no-op passing the item
through unchanged. -/
theorem C7_witness :
    anonStage wfItem wfItem srcHappy destFresh false c0 [] =
      persistStage wfItem wfItem srcHappy destFresh c0 [] :=
  (C7_anonymize_guard wfItem wfItem srcHappy destFresh false c0).2.2 rfl

/-- C9: when source.find returns a non-empty result, the first result's
tags are merged into the caller's item.tags in place before the
staged-at-source and payload-fetch checks, and the mutation is not undone
on failure: both when the item is not staged at the source and when the
payload fetch raises FileNotFoundError, handle_item returns with failed
incremented and the caller's item.tags still equal to the merged
dictionary. -/
theorem C9_merge_persists (item : Dixel) (src : SourceBehavior)
    (dd : DestBehavior) (rd an kh : Bool) (c : Counters)
    (key_id : String) (kdata : Dict) (r0 : Dict) (rest : List Dict)
    (hk : keying item = Except.ok (key_id, kdata))
    (hex : dd.existsFn item = false)
    (hfind : src.find (mkq item) = r0 :: rest) :
    (src.proxyExists { item with tags := dictUpdate item.tags r0 } = false →
      (handle_item item src dd rd an kh c).item.tags =
        dictUpdate item.tags r0 ∧
      (handle_item item src dd rd an kh c).counters =
        { c with failed := c.failed + 1 }) ∧
    (∀ cur2,
      src.proxyExists { item with tags := dictUpdate item.tags r0 } = true →
      (if (an && !dd.isImageDir) = true
        then src.anonymize { item with tags := dictUpdate item.tags r0 }
        else Except.ok { item with tags := dictUpdate item.tags r0 }) =
          Except.ok cur2 →
      src.get cur2 = Except.error PyExc.fileNotFoundError →
      (handle_item item src dd rd an kh c).item.tags =
        dictUpdate item.tags r0 ∧
      (handle_item item src dd rd an kh c).counters =
        { c with failed := c.failed + 1 }) := by
  have hh : handle_item item src dd rd an kh c =
      stagedStage { item with tags := dictUpdate item.tags r0 }
        { item with tags := dictUpdate item.tags r0 } src dd an c
        (((if kh then [Ev.keyEmit key_id] else []) ++
          (if rd then [Ev.reportPut] else [])) ++ [Ev.findCall]) := by
    rw [handle_item_findStage item src dd rd an kh c key_id kdata hk hex]
    exact findStage_cons item src dd an c _ r0 rest hfind
  constructor
  · intro hs
    rw [hh, stagedStage_notStaged _ _ _ _ _ _ _ hs]
    exact ⟨rfl, rfl⟩
  · intro cur2 hs hanon hget
    rw [hh, stagedStage_staged _ _ _ _ _ _ _ hs]
    cases hb : (an && !dd.isImageDir) with
    | true =>
      rw [if_pos hb] at hanon
      rw [anonStage_on _ _ _ _ _ _ _ cur2 hb hanon,
        persistStage_fnf _ _ _ _ _ _ hget]
      exact ⟨rfl, rfl⟩
    | false =>
      rw [if_neg (by simp [hb])] at hanon
      have hcur : cur2 = { item with tags := dictUpdate item.tags r0 } := by
        cases hanon
        rfl
      subst hcur
      rw [anonStage_off _ _ _ _ _ _ _ hb, persistStage_fnf _ _ _ _ _ _ hget]
      exact ⟨rfl, rfl⟩

/-- C9 witness: a concrete item resolved by find but never staged at the
proxy ends failed with the merged tags still present on the caller's
item. -/
theorem C9_witness :
    (handle_item wfItem srcNotStaged destFresh false true true c0).item.tags =
      dictUpdate wfItem.tags
        [("StudyInstanceUID", "1.2.3"), ("Modality", "CT")] ∧
    (handle_item wfItem srcNotStaged destFresh false true true c0).counters =
      { c0 with failed := c0.failed + 1 } :=
  (C9_merge_persists wfItem srcNotStaged destFresh false true true c0
     "ACC001"
     [("modality", "CT"), ("body_part", "HEAD"), ("cpts", "70450"),
      ("age", "044Y"), ("sex", "F"), ("status", "OUTPATIENT"),
      ("radcat", "R3")]
     [("StudyInstanceUID", "1.2.3"), ("Modality", "CT")] []
     (by decide) rfl rfl).1 rfl
